import Mathlib

/-!
Shallow embedding of `cache_db.py`, the SQLite-backed cache for OpenAlex
works and SDG classifications, together with proofs of the specified
properties of its two caches (works and sdg_results) and of schema
initialization/migration.

Modelling conventions:
* A SQLite table is a list of rows in insertion order; `SELECT ... WHERE
  key = ?` is `List.find?`, and `INSERT ... ON CONFLICT ... DO UPDATE`
  replaces the (unique) conflicting row in place, else appends.
* Python `str.strip()` is `pyStrip` (drop whitespace from both ends).
* `json.dumps` is `Json.dumps`; a Python object that `json.dumps` cannot
  encode (it raises `TypeError`) is the constructor `Json.bad`, and
  `dumps` returns `none` for any value containing it.  An operation that
  raises an exception is modelled as returning `none`: no successor
  state is produced, so the store is left unchanged.
* `datetime.utcnow().isoformat(timespec="seconds")` is an explicit
  `now : String` argument: the clock is external state.
* SQL three-valued equality on nullable columns (`NULL = x` is not
  true) is `sqlEqKey` on `Option String`.
-/

mutual

/-- Values of Python objects that may appear in a JSON payload.  Objects and
arrays are mutual inductives (rather than `List`-nested) so that the
serializer below is structurally recursive and evaluates by `rfl`/`decide`.
`bad` stands for an object `json.dumps` cannot encode. -/
inductive Json where
  | null : Json
  | jbool : Bool → Json
  | jnum : Int → Json
  | jstr : String → Json
  | jarr : JsonList → Json
  | jobj : JsonObj → Json
  | bad : Json

/-- A JSON array, as a bespoke list of `Json`. -/
inductive JsonList where
  | nil : JsonList
  | cons : Json → JsonList → JsonList

/-- A JSON object (a Python `dict` with string keys), as a bespoke
association list. -/
inductive JsonObj where
  | nil : JsonObj
  | cons : String → Json → JsonObj → JsonObj

end

/-- Hexadecimal digit for JSON `\uXXXX` escapes. -/
def hexDigit (n : Nat) : Char :=
  if n < 10 then Char.ofNat (48 + n) else Char.ofNat (87 + n)

/-- Four-hex-digit rendering of a code point below 0x10000. -/
def hex4 (n : Nat) : String :=
  String.mk [hexDigit (n / 4096 % 16), hexDigit (n / 256 % 16),
    hexDigit (n / 16 % 16), hexDigit (n % 16)]

/-- JSON escaping of one character, as `json.dumps(..., ensure_ascii=False)`
does it: quote, backslash and control characters are escaped, everything
else is kept verbatim. -/
def jsonEscapeChar (c : Char) : String :=
  if c = '"' then "\\\""
  else if c = '\\' then "\\\\"
  else if c = '\n' then "\\n"
  else if c = '\t' then "\\t"
  else if c = '\r' then "\\r"
  else if c = '\x08' then "\\b"
  else if c = '\x0c' then "\\f"
  else if c.toNat < 32 then "\\u" ++ hex4 c.toNat
  else String.singleton c

/-- JSON rendering of a string literal. -/
def jsonEscapeString (s : String) : String :=
  "\"" ++ String.join (s.data.map jsonEscapeChar) ++ "\""

mutual

/-- `json.dumps(v, ensure_ascii=False)`: `none` models the `TypeError`
raised on a non-encodable object. -/
def Json.dumps : Json → Option String
  | .null => some "null"
  | .jbool true => some "true"
  | .jbool false => some "false"
  | .jnum n => some (toString n)
  | .jstr s => some (jsonEscapeString s)
  | .jarr xs =>
      match JsonList.dumpsElems xs with
      | none => none
      | some parts => some ("[" ++ String.intercalate ", " parts ++ "]")
  | .jobj kvs =>
      match JsonObj.dumpsEntries kvs with
      | none => none
      | some parts => some ("\x7b" ++ String.intercalate ", " parts ++ "\x7d")
  | .bad => none

/-- Serialize the elements of a JSON array. -/
def JsonList.dumpsElems : JsonList → Option (List String)
  | .nil => some []
  | .cons x xs =>
      match Json.dumps x, JsonList.dumpsElems xs with
      | some s, some rest => some (s :: rest)
      | _, _ => none

/-- Serialize the `"key": value` entries of a JSON object. -/
def JsonObj.dumpsEntries : JsonObj → Option (List String)
  | .nil => some []
  | .cons k v xs =>
      match Json.dumps v, JsonObj.dumpsEntries xs with
      | some s, some rest => some ((jsonEscapeString k ++ ": " ++ s) :: rest)
      | _, _ => none

end

/-- Python `str.strip()`: remove leading and trailing whitespace. -/
def pyStrip (s : String) : String :=
  String.mk (((s.data.dropWhile Char.isWhitespace).reverse.dropWhile
    Char.isWhitespace).reverse)

/-- SQL equality on the nullable `openalex_id` column of `works`:
`NULL` compares equal to nothing (three-valued logic), so a `NULL` key
neither conflicts on insert nor matches a lookup. -/
def sqlEqKey : Option String → Option String → Bool
  | some a, some b => a == b
  | _, _ => false

/-- A stored row of the `works` table (all columns nullable; `is_oa` is the
tri-state integer column). -/
structure WorksRow where
  openalex_id : Option String
  title : Option String
  publication_date : Option String
  doi : Option String
  type : Option String
  language : Option String
  is_oa : Option Int
  oa_status : Option String
  authors : Option String
  institutions : Option String
  institution_affiliations_json : Option String
  abstract : Option String
  raw_json : Option String
  updated_at : Option String
deriving DecidableEq, Repr

/-- The `row` dict passed to `upsert_work`: `row.get(k)` yields `none` for
an absent or `None` entry.  `is_oa` carries the caller's boolean. -/
structure WorkInput where
  openalex_id : Option String := none
  title : Option String := none
  publication_date : Option String := none
  doi : Option String := none
  type : Option String := none
  language : Option String := none
  is_oa : Option Bool := none
  oa_status : Option String := none
  authors : Option String := none
  institutions : Option String := none
  institution_affiliations_json : Option String := none
  abstract : Option String := none
deriving DecidableEq, Repr

/-- The `works` table, rows in insertion order. -/
abbrev WorksTable := List WorksRow

/-- The serialized `raw_json` column value computed by `upsert_work`:
`json.dumps(raw_record, ensure_ascii=False) if raw_record else None`.
The test is truthiness, so both `None` and the empty dict store `NULL`;
the outer `none` models the propagated `TypeError`. -/
def serializeRaw : Option JsonObj → Option (Option String)
  | none => some none
  | some .nil => some none
  | some kvs => (Json.dumps (.jobj kvs)).map some

/-- The `payload` dict built by `upsert_work` (before any SQL runs):
the identifier is stored exactly as given (not stripped), `is_oa` becomes
`int(...)` when present, and `updated_at` is the current UTC timestamp. -/
def workRowOf (row : WorkInput) (rawText : Option String) (now : String) :
    WorksRow where
  openalex_id := row.openalex_id
  title := row.title
  publication_date := row.publication_date
  doi := row.doi
  type := row.type
  language := row.language
  is_oa := row.is_oa.map (fun b => if b then (1 : Int) else 0)
  oa_status := row.oa_status
  authors := row.authors
  institutions := row.institutions
  institution_affiliations_json := row.institution_affiliations_json
  abstract := row.abstract
  raw_json := rawText
  updated_at := some now

/-- `INSERT INTO works ... ON CONFLICT(openalex_id) DO UPDATE SET ...`:
replace the conflicting row (every column from `excluded`) if one exists,
else append the new row. -/
def worksUpsertRow : WorksTable → WorksRow → WorksTable
  | [], r => [r]
  | r0 :: rest, r =>
      if sqlEqKey r0.openalex_id r.openalex_id then r :: rest
      else r0 :: worksUpsertRow rest r

/-- `upsert_work(row, raw_record)` as a state transition on the `works`
table; `none` models the exception propagated from `json.dumps`, raised
while building the payload, before any SQL statement runs. -/
def upsert_work (st : WorksTable) (row : WorkInput) (raw_record : Option JsonObj)
    (now : String) : Option WorksTable :=
  (serializeRaw raw_record).map (fun rt => worksUpsertRow st (workRowOf row rt now))

/-- `get_cached_work(openalex_id)`: strip the identifier, `SELECT * FROM
works WHERE openalex_id = ?`, return the full row dict or `None`. -/
def get_cached_work (st : WorksTable) (openalex_id : String) : Option WorksRow :=
  st.find? (fun r => sqlEqKey r.openalex_id (some (pyStrip openalex_id)))

/-- A stored row of the `sdg_results` table; the key columns are `NOT
NULL` and the code always writes every column. -/
structure SdgRow where
  openalex_id : String
  model : String
  sdg_response : Option String
  sdg_formatted : String
  sdg_note : String
  classified_at : String
deriving DecidableEq, Repr

/-- The projection returned by `get_cached_sdg_result` (it selects only
these four columns). -/
structure SdgResult where
  sdg_response : Option String
  sdg_formatted : String
  sdg_note : String
  classified_at : String
deriving DecidableEq, Repr

/-- The `sdg_results` table, rows in insertion order. -/
abbrev SdgTable := List SdgRow

/-- The serialized `sdg_response` column value computed by
`upsert_sdg_result`: `json.dumps(...) if sdg_response is not None else
None`.  The test is `is not None`, so the empty dict is serialized (to
`"\x7b\x7d"`), unlike in `upsert_work`. -/
def serializeResp : Option JsonObj → Option (Option String)
  | none => some none
  | some kvs => (Json.dumps (.jobj kvs)).map some

/-- The payload row built by `upsert_sdg_result`: both key components are
stripped before storage. -/
def sdgRowOf (openalex_id model : String) (respText : Option String)
    (sdg_formatted sdg_note now : String) : SdgRow where
  openalex_id := pyStrip openalex_id
  model := pyStrip model
  sdg_response := respText
  sdg_formatted := sdg_formatted
  sdg_note := sdg_note
  classified_at := now

/-- `INSERT INTO sdg_results ... ON CONFLICT(openalex_id, model) DO UPDATE
SET ...`: replace the row with the same composite key if one exists
(every non-key column from `excluded`), else append. -/
def sdgUpsertRow : SdgTable → SdgRow → SdgTable
  | [], r => [r]
  | r0 :: rest, r =>
      if r0.openalex_id == r.openalex_id && r0.model == r.model then r :: rest
      else r0 :: sdgUpsertRow rest r

/-- `upsert_sdg_result(openalex_id, model, sdg_response, sdg_formatted,
sdg_note)` as a state transition; `none` models the exception propagated
from `json.dumps`, raised while building the payload, before any SQL
statement runs. -/
def upsert_sdg_result (st : SdgTable) (openalex_id model : String)
    (sdg_response : Option JsonObj) (sdg_formatted sdg_note now : String) :
    Option SdgTable :=
  (serializeResp sdg_response).map
    (fun rt => sdgUpsertRow st (sdgRowOf openalex_id model rt sdg_formatted sdg_note now))

/-- `get_cached_sdg_result(openalex_id, model)`: strip both key
components, select the four payload columns by composite key, return the
row dict or `None`. -/
def get_cached_sdg_result (st : SdgTable) (openalex_id model : String) :
    Option SdgResult :=
  (st.find? (fun r =>
      r.openalex_id == pyStrip openalex_id && r.model == pyStrip model)).map
    (fun r => ⟨r.sdg_response, r.sdg_formatted, r.sdg_note, r.classified_at⟩)

/-- Number of `sdg_results` rows with the given (already stripped)
composite key: the key-uniqueness invariant says this is at most one. -/
def countPair (st : SdgTable) (openalex_id model : String) : Nat :=
  (st.filter (fun r => r.openalex_id == openalex_id && r.model == model)).length

/-- A row of the `works` table as it exists in an old store created
before the `institution_affiliations_json` column was added. -/
structure OldWorksRow where
  openalex_id : Option String
  title : Option String
  publication_date : Option String
  doi : Option String
  type : Option String
  language : Option String
  is_oa : Option Int
  oa_status : Option String
  authors : Option String
  institutions : Option String
  abstract : Option String
  raw_json : Option String
  updated_at : Option String
deriving DecidableEq, Repr

/-- `ALTER TABLE works ADD COLUMN institution_affiliations_json TEXT`
applied to one pre-existing row: the new column is `NULL`, every other
column keeps its value. -/
def OldWorksRow.migrate (r : OldWorksRow) : WorksRow where
  openalex_id := r.openalex_id
  title := r.title
  publication_date := r.publication_date
  doi := r.doi
  type := r.type
  language := r.language
  is_oa := r.is_oa
  oa_status := r.oa_status
  authors := r.authors
  institutions := r.institutions
  institution_affiliations_json := none
  abstract := r.abstract
  raw_json := r.raw_json
  updated_at := r.updated_at

/-- Schema state of the `works` table in a store `_init_schema` may be
run on: absent, present with the old column set (no
`institution_affiliations_json`, as `PRAGMA table_info` would report), or
present with the current column set. -/
inductive WorksTableState where
  | absent : WorksTableState
  | old : List OldWorksRow → WorksTableState
  | current : List WorksRow → WorksTableState
deriving DecidableEq, Repr

/-- The on-disk store `_init_schema` operates on: the `works` table
state, the `sdg_results` table (`none` when the table does not exist),
and whether the `idx_sdg_results_model` index exists. -/
structure Store where
  works : WorksTableState
  sdg_results : Option SdgTable
  idx_sdg_results_model : Bool

/-- `_init_schema(conn)`: `CREATE TABLE IF NOT EXISTS` for both tables,
`CREATE INDEX IF NOT EXISTS` for the model index, then the additive
migration — query the `works` columns and, only when
`institution_affiliations_json` is missing, `ALTER TABLE ... ADD COLUMN`
it (filling `NULL` for existing rows). -/
def init_schema (s : Store) : Store :=
  let works1 : WorksTableState :=
    match s.works with
    | .absent => .current []
    | w => w
  let sdg1 : SdgTable :=
    match s.sdg_results with
    | none => []
    | some t => t
  let works2 : WorksTableState :=
    match works1 with
    | .old rows => .current (rows.map OldWorksRow.migrate)
    | w => w
  { works := works2, sdg_results := some sdg1, idx_sdg_results_model := true }

/-- One `put` call to the works cache, for reasoning about sequences of
serialized writes. -/
structure WorkCall where
  row : WorkInput
  raw_record : Option JsonObj
  now : String

/-- Run a sequence of `upsert_work` calls in the total order imposed by
the write lock; any call raising a serialization error aborts the run. -/
def runWorkPuts (st : WorksTable) : List WorkCall → Option WorksTable
  | [] => some st
  | c :: cs =>
      match upsert_work st c.row c.raw_record c.now with
      | none => none
      | some st1 => runWorkPuts st1 cs

/-- One `put` call to the classification-result cache. -/
structure SdgCall where
  sdg_response : Option JsonObj
  sdg_formatted : String
  sdg_note : String
  now : String

/-- Run a sequence of `upsert_sdg_result` calls for one (identifier,
model) pair in the total order imposed by the write lock. -/
def runSdgPuts (openalex_id model : String) (st : SdgTable) :
    List SdgCall → Option SdgTable
  | [] => some st
  | c :: cs =>
      match upsert_sdg_result st openalex_id model c.sdg_response
          c.sdg_formatted c.sdg_note c.now with
      | none => none
      | some st1 => runSdgPuts openalex_id model st1 cs

/-- A concrete pre-migration `works` row, used to exercise the additive
migration on a store with existing data. -/
def oldRowEx : OldWorksRow :=
  ⟨some "W1", some "Paper A", some "2020-01-02", some "10.1/x", some "article",
    some "en", some 1, some "gold", some "[]", some "[]", some "Abs",
    some "\x7b\x7d", some "2020-01-02T00:00:00"⟩

theorem get_worksUpsertRow_self (st : WorksTable) (r : WorksRow) (id : String)
    (h : r.openalex_id = some (pyStrip id)) :
    get_cached_work (worksUpsertRow st r) id = some r := by
  induction st with
  | nil => simp [worksUpsertRow, get_cached_work, List.find?, h, sqlEqKey]
  | cons r0 rest ih =>
      simp only [worksUpsertRow, h]
      cases hsq : sqlEqKey r0.openalex_id (some (pyStrip id)) with
      | true => simp [hsq, get_cached_work, List.find?, h, sqlEqKey]
      | false => simpa [hsq, get_cached_work, List.find?, h] using ih

theorem get_sdgUpsertRow_self (st : SdgTable) (r : SdgRow) (id m : String)
    (h1 : r.openalex_id = pyStrip id) (h2 : r.model = pyStrip m) :
    get_cached_sdg_result (sdgUpsertRow st r) id m =
      some ⟨r.sdg_response, r.sdg_formatted, r.sdg_note, r.classified_at⟩ := by
  induction st with
  | nil => simp [sdgUpsertRow, get_cached_sdg_result, List.find?, h1, h2]
  | cons r0 rest ih =>
      simp only [sdgUpsertRow, h1, h2]
      cases hsq : (r0.openalex_id == pyStrip id && r0.model == pyStrip m) with
      | true => simp [hsq, get_cached_sdg_result, List.find?, h1, h2]
      | false =>
          simpa [hsq, get_cached_sdg_result, List.find?, h1, h2] using ih

theorem get_sdgUpsertRow_other (st : SdgTable) (r : SdgRow) (id m : String)
    (h : (r.openalex_id == pyStrip id && r.model == pyStrip m) = false) :
    get_cached_sdg_result (sdgUpsertRow st r) id m =
      get_cached_sdg_result st id m := by
  induction st with
  | nil => simp [sdgUpsertRow, get_cached_sdg_result, List.find?, h]
  | cons r0 rest ih =>
      cases hsq : (r0.openalex_id == r.openalex_id && r0.model == r.model) with
      | true =>
          have hids : r0.openalex_id = r.openalex_id ∧ r0.model = r.model := by
            simpa [Bool.and_eq_true] using hsq
          simp [sdgUpsertRow, hsq, get_cached_sdg_result, List.find?, h,
            hids.1, hids.2]
      | false =>
          cases hp : (r0.openalex_id == pyStrip id && r0.model == pyStrip m) with
          | true =>
              simp [sdgUpsertRow, hsq, get_cached_sdg_result, List.find?, hp]
          | false =>
              simpa [sdgUpsertRow, hsq, get_cached_sdg_result, List.find?, hp]
                using ih

theorem countPair_sdgUpsertRow_self_zero (st : SdgTable) (r : SdgRow)
    (h0 : countPair st r.openalex_id r.model = 0) :
    countPair (sdgUpsertRow st r) r.openalex_id r.model = 1 := by
  induction st with
  | nil => simp [sdgUpsertRow, countPair, List.filter]
  | cons r0 rest ih =>
      cases hsq : (r0.openalex_id == r.openalex_id && r0.model == r.model) with
      | true =>
          exfalso
          simp [countPair, List.filter, hsq] at h0
      | false =>
          have h0' : countPair rest r.openalex_id r.model = 0 := by
            simpa [countPair, List.filter, hsq] using h0
          simpa [sdgUpsertRow, hsq, countPair, List.filter] using ih h0'

theorem countPair_sdgUpsertRow_self_pos (st : SdgTable) (r : SdgRow)
    (h0 : 0 < countPair st r.openalex_id r.model) :
    countPair (sdgUpsertRow st r) r.openalex_id r.model =
      countPair st r.openalex_id r.model := by
  induction st with
  | nil => simp [countPair, List.filter] at h0
  | cons r0 rest ih =>
      cases hsq : (r0.openalex_id == r.openalex_id && r0.model == r.model) with
      | true => simp [sdgUpsertRow, hsq, countPair, List.filter]
      | false =>
          have h0' : 0 < countPair rest r.openalex_id r.model := by
            simpa [countPair, List.filter, hsq] using h0
          simpa [sdgUpsertRow, hsq, countPair, List.filter] using ih h0'

theorem countPair_sdgUpsertRow_other (st : SdgTable) (r : SdgRow)
    (id m : String) (h : (r.openalex_id == id && r.model == m) = false) :
    countPair (sdgUpsertRow st r) id m = countPair st id m := by
  induction st with
  | nil => simp [sdgUpsertRow, countPair, List.filter, h]
  | cons r0 rest ih =>
      cases hsq : (r0.openalex_id == r.openalex_id && r0.model == r.model) with
      | true =>
          have hids : r0.openalex_id = r.openalex_id ∧ r0.model = r.model := by
            simpa [Bool.and_eq_true] using hsq
          simp [sdgUpsertRow, hsq, countPair, List.filter, h, hids.1, hids.2]
      | false =>
          cases hp : (r0.openalex_id == id && r0.model == m) with
          | true => simpa [sdgUpsertRow, hsq, countPair, List.filter, hp] using ih
          | false => simpa [sdgUpsertRow, hsq, countPair, List.filter, hp] using ih

theorem sqlEqKey_true_iff (x : Option String) (y : String) :
    sqlEqKey x (some y) = true ↔ x = some y := by
  cases x <;> simp [sqlEqKey]

/-- Claim C1: for every valid (whitespace-free) work identifier, `get`
after a `put` of the same identifier returns exactly the row that was
written, with the serialized list/mapping fields (`authors`,
`institutions`, `institution_affiliations_json`, `raw_json`) and the
tri-state `is_oa` flag stored faithfully. -/
theorem works_cache_roundtrip_C1 (st : WorksTable) (row : WorkInput)
    (raw_record : Option JsonObj) (now id : String) (rt : Option String)
    (hid : row.openalex_id = some id) (htrim : pyStrip id = id)
    (hser : serializeRaw raw_record = some rt) :
    ∃ st', upsert_work st row raw_record now = some st' ∧
      get_cached_work st' id = some (workRowOf row rt now) ∧
      (workRowOf row rt now).authors = row.authors ∧
      (workRowOf row rt now).institutions = row.institutions ∧
      (workRowOf row rt now).institution_affiliations_json =
        row.institution_affiliations_json ∧
      (workRowOf row rt now).raw_json = rt ∧
      (workRowOf row rt now).is_oa =
        row.is_oa.map (fun b => if b then (1 : Int) else 0) := by
  refine ⟨worksUpsertRow st (workRowOf row rt now), ?_, ?_, rfl, rfl, rfl, rfl, rfl⟩
  · simp [upsert_work, hser]
  · exact get_worksUpsertRow_self st _ id (by simp [workRowOf, hid, htrim])

theorem works_cache_roundtrip_C1_witness :
    ∃ st', upsert_work []
        { openalex_id := some "W1", title := some "Paper A", is_oa := some true }
        none "2026-01-01T00:00:00" = some st' ∧
      get_cached_work st' "W1" = some (workRowOf
        { openalex_id := some "W1", title := some "Paper A", is_oa := some true }
        none "2026-01-01T00:00:00") ∧
      (workRowOf
        { openalex_id := some "W1", title := some "Paper A", is_oa := some true }
        none "2026-01-01T00:00:00").authors = none ∧
      (workRowOf
        { openalex_id := some "W1", title := some "Paper A", is_oa := some true }
        none "2026-01-01T00:00:00").institutions = none ∧
      (workRowOf
        { openalex_id := some "W1", title := some "Paper A", is_oa := some true }
        none "2026-01-01T00:00:00").institution_affiliations_json = none ∧
      (workRowOf
        { openalex_id := some "W1", title := some "Paper A", is_oa := some true }
        none "2026-01-01T00:00:00").raw_json = none ∧
      (workRowOf
        { openalex_id := some "W1", title := some "Paper A", is_oa := some true }
        none "2026-01-01T00:00:00").is_oa =
        (some true).map (fun b => if b then (1 : Int) else 0) :=
  works_cache_roundtrip_C1 [] _ none "2026-01-01T00:00:00" "W1" none rfl
    (by decide) rfl

/-- Claim C3: a second `put` with the same identifier overwrites all
non-key fields with the second write's values (full replace, not merge):
the resulting row is exactly the payload of the second write, so a field
that is omitted/null in the second write is null afterwards. -/
theorem works_put_overwrites_all_fields_C3 (st : WorksTable)
    (row1 row2 : WorkInput) (raw1 raw2 : Option JsonObj)
    (now1 now2 id : String) (rt1 rt2 : Option String)
    (_h1 : row1.openalex_id = some id) (h2 : row2.openalex_id = some id)
    (htrim : pyStrip id = id)
    (hs1 : serializeRaw raw1 = some rt1) (hs2 : serializeRaw raw2 = some rt2) :
    ∃ stA stB, upsert_work st row1 raw1 now1 = some stA ∧
      upsert_work stA row2 raw2 now2 = some stB ∧
      get_cached_work stB id = some (workRowOf row2 rt2 now2) ∧
      (row2.title = none → (workRowOf row2 rt2 now2).title = none) ∧
      (row2.is_oa = none → (workRowOf row2 rt2 now2).is_oa = none) ∧
      (raw2 = none → (workRowOf row2 rt2 now2).raw_json = none) := by
  refine ⟨worksUpsertRow st (workRowOf row1 rt1 now1),
    worksUpsertRow (worksUpsertRow st (workRowOf row1 rt1 now1))
      (workRowOf row2 rt2 now2), ?_, ?_, ?_, ?_, ?_, ?_⟩
  · simp [upsert_work, hs1]
  · simp [upsert_work, hs2]
  · exact get_worksUpsertRow_self _ _ id (by simp [workRowOf, h2, htrim])
  · intro h; simp [workRowOf, h]
  · intro h; simp [workRowOf, h]
  · intro h
    rw [h] at hs2
    have : rt2 = none := by simpa [serializeRaw] using hs2.symm
    simp [workRowOf, this]

theorem works_put_overwrites_all_fields_C3_witness :
    ∃ stA stB, upsert_work [] { openalex_id := some "W1", title := some "Paper A", is_oa := some true } none "T1" = some stA ∧
      upsert_work stA { openalex_id := some "W1", title := some "Paper A revised" }
        none "T2" = some stB ∧
      get_cached_work stB "W1" = some (workRowOf
        { openalex_id := some "W1", title := some "Paper A revised" } none "T2") ∧
      (({ openalex_id := some "W1", title := some "Paper A revised" } :
          WorkInput).title = none →
        (workRowOf { openalex_id := some "W1", title := some "Paper A revised" }
          none "T2").title = none) ∧
      (({ openalex_id := some "W1", title := some "Paper A revised" } :
          WorkInput).is_oa = none →
        (workRowOf { openalex_id := some "W1", title := some "Paper A revised" }
          none "T2").is_oa = none) ∧
      ((none : Option JsonObj) = none →
        (workRowOf { openalex_id := some "W1", title := some "Paper A revised" }
          none "T2").raw_json = none) :=
  works_put_overwrites_all_fields_C3 [] _ _ none none "T1" "T2" "W1" none none
    rfl rfl (by decide) rfl rfl

/-- Claim C4: for every (work identifier, model identifier) pair, `get`
on the classification-result cache returns absent when the store has no
row for that pair, and after a `put` it returns exactly that put's
payload, formatted text and note (with its timestamp). -/
theorem sdg_get_absent_then_put_C4 (st : SdgTable) (id m : String)
    (resp : Option JsonObj) (f n now : String) (rt : Option String)
    (hmiss : ∀ r ∈ st, ¬(r.openalex_id = pyStrip id ∧ r.model = pyStrip m))
    (hser : serializeResp resp = some rt) :
    get_cached_sdg_result st id m = none ∧
    ∃ st', upsert_sdg_result st id m resp f n now = some st' ∧
      get_cached_sdg_result st' id m = some ⟨rt, f, n, now⟩ := by
  constructor
  · have hfind : st.find?
        (fun r => r.openalex_id == pyStrip id && r.model == pyStrip m) = none := by
      rw [List.find?_eq_none]
      intro r hr hp
      exact hmiss r hr (by simpa [Bool.and_eq_true] using hp)
    simp [get_cached_sdg_result, hfind]
  · refine ⟨sdgUpsertRow st (sdgRowOf id m rt f n now), ?_, ?_⟩
    · simp [upsert_sdg_result, hser]
    · exact get_sdgUpsertRow_self st _ id m rfl rfl

theorem sdg_get_absent_then_put_C4_witness :
    get_cached_sdg_result [] "W1" "gpt-4" = none ∧
    ∃ st', upsert_sdg_result [] "W1" "gpt-4" none "SDG 3" "note" "T1" = some st' ∧
      get_cached_sdg_result st' "W1" "gpt-4" =
        some ⟨none, "SDG 3", "note", "T1"⟩ :=
  sdg_get_absent_then_put_C4 [] "W1" "gpt-4" none "SDG 3" "note" "T1" none
    (by intro r hr; cases hr) rfl

/-- Claim C5: composite-key uniqueness of the classification-result
cache: two `put` calls with the same identifier and different models
leave one row per pair (two distinct rows, each with its own put's
content); two `put` calls with the same identifier and the same model
leave exactly one row, whose content is the latest write's. -/
theorem sdg_composite_key_uniqueness_C5 (st : SdgTable) (id m1 m2 : String)
    (r1 r2 : Option JsonObj) (f1 n1 t1 f2 n2 t2 : String)
    (rt1 rt2 : Option String)
    (hm : pyStrip m1 ≠ pyStrip m2)
    (hs1 : serializeResp r1 = some rt1) (hs2 : serializeResp r2 = some rt2)
    (hc1 : countPair st (pyStrip id) (pyStrip m1) = 0)
    (hc2 : countPair st (pyStrip id) (pyStrip m2) = 0) :
    (∃ stA stB, upsert_sdg_result st id m1 r1 f1 n1 t1 = some stA ∧
      upsert_sdg_result stA id m2 r2 f2 n2 t2 = some stB ∧
      countPair stB (pyStrip id) (pyStrip m1) = 1 ∧
      countPair stB (pyStrip id) (pyStrip m2) = 1 ∧
      get_cached_sdg_result stB id m1 = some ⟨rt1, f1, n1, t1⟩ ∧
      get_cached_sdg_result stB id m2 = some ⟨rt2, f2, n2, t2⟩) ∧
    (∃ stC stD, upsert_sdg_result st id m1 r1 f1 n1 t1 = some stC ∧
      upsert_sdg_result stC id m1 r2 f2 n2 t2 = some stD ∧
      countPair stD (pyStrip id) (pyStrip m1) = 1 ∧
      get_cached_sdg_result stD id m1 = some ⟨rt2, f2, n2, t2⟩) := by
  have hne12 : (pyStrip m1 == pyStrip m2) = false := beq_eq_false_iff_ne.mpr hm
  have hne21 : (pyStrip m2 == pyStrip m1) = false :=
    beq_eq_false_iff_ne.mpr (Ne.symm hm)
  have hb1 : ((sdgRowOf id m2 rt2 f2 n2 t2).openalex_id == pyStrip id &&
      (sdgRowOf id m2 rt2 f2 n2 t2).model == pyStrip m1) = false := by
    simp [sdgRowOf, hne21]
  have ha2 : ((sdgRowOf id m1 rt1 f1 n1 t1).openalex_id == pyStrip id &&
      (sdgRowOf id m1 rt1 f1 n1 t1).model == pyStrip m2) = false := by
    simp [sdgRowOf, hne12]
  have hcA1 : countPair (sdgUpsertRow st (sdgRowOf id m1 rt1 f1 n1 t1))
      (pyStrip id) (pyStrip m1) = 1 :=
    countPair_sdgUpsertRow_self_zero st _ hc1
  constructor
  · refine ⟨sdgUpsertRow st (sdgRowOf id m1 rt1 f1 n1 t1),
      sdgUpsertRow (sdgUpsertRow st (sdgRowOf id m1 rt1 f1 n1 t1))
        (sdgRowOf id m2 rt2 f2 n2 t2), ?_, ?_, ?_, ?_, ?_, ?_⟩
    · simp [upsert_sdg_result, hs1]
    · simp [upsert_sdg_result, hs2]
    · rw [countPair_sdgUpsertRow_other _ _ _ _ hb1]
      exact hcA1
    · have hcA2 : countPair (sdgUpsertRow st (sdgRowOf id m1 rt1 f1 n1 t1))
          (pyStrip id) (pyStrip m2) = 0 := by
        rw [countPair_sdgUpsertRow_other _ _ _ _ ha2]
        exact hc2
      exact countPair_sdgUpsertRow_self_zero _ _ hcA2
    · rw [get_sdgUpsertRow_other _ _ _ _ hb1]
      exact get_sdgUpsertRow_self st _ id m1 rfl rfl
    · exact get_sdgUpsertRow_self _ _ id m2 rfl rfl
  · refine ⟨sdgUpsertRow st (sdgRowOf id m1 rt1 f1 n1 t1),
      sdgUpsertRow (sdgUpsertRow st (sdgRowOf id m1 rt1 f1 n1 t1))
        (sdgRowOf id m1 rt2 f2 n2 t2), ?_, ?_, ?_, ?_⟩
    · simp [upsert_sdg_result, hs1]
    · simp [upsert_sdg_result, hs2]
    · have h1pos : 0 < countPair (sdgUpsertRow st (sdgRowOf id m1 rt1 f1 n1 t1))
          (pyStrip id) (pyStrip m1) := by rw [hcA1]; norm_num
      exact (countPair_sdgUpsertRow_self_pos
        (sdgUpsertRow st (sdgRowOf id m1 rt1 f1 n1 t1))
        (sdgRowOf id m1 rt2 f2 n2 t2) h1pos).trans hcA1
    · exact get_sdgUpsertRow_self _ _ id m1 rfl rfl

theorem sdg_composite_key_uniqueness_C5_witness :
    (∃ stA stB, upsert_sdg_result [] "W1" "gpt-4" none "A" "na" "T1" = some stA ∧
      upsert_sdg_result stA "W1" "llama" none "B" "nb" "T2" = some stB ∧
      countPair stB (pyStrip "W1") (pyStrip "gpt-4") = 1 ∧
      countPair stB (pyStrip "W1") (pyStrip "llama") = 1 ∧
      get_cached_sdg_result stB "W1" "gpt-4" = some ⟨none, "A", "na", "T1"⟩ ∧
      get_cached_sdg_result stB "W1" "llama" = some ⟨none, "B", "nb", "T2"⟩) ∧
    (∃ stC stD, upsert_sdg_result [] "W1" "gpt-4" none "A" "na" "T1" = some stC ∧
      upsert_sdg_result stC "W1" "gpt-4" none "B" "nb" "T2" = some stD ∧
      countPair stD (pyStrip "W1") (pyStrip "gpt-4") = 1 ∧
      get_cached_sdg_result stD "W1" "gpt-4" = some ⟨none, "B", "nb", "T2"⟩) :=
  sdg_composite_key_uniqueness_C5 [] "W1" "gpt-4" "llama" none none
    "A" "na" "T1" "B" "nb" "T2" none none (by decide) rfl rfl rfl rfl

/-- Claim C6: schema initialization is idempotent on a store that
already has the current schema (exact no-op, no rows lost), and on a
store whose `works` table lacks `institution_affiliations_json` it adds
that column with null values for all pre-existing rows while preserving
every other column value of every row (and keeping the `sdg_results`
rows). -/
theorem init_schema_idempotent_and_migrates_C6 :
    (∀ (wrows : List WorksRow) (sdg : SdgTable),
      init_schema ⟨.current wrows, some sdg, true⟩ =
        ⟨.current wrows, some sdg, true⟩) ∧
    (∀ (s : Store) (wrows : List OldWorksRow), s.works = .old wrows →
      (init_schema s).works = .current (wrows.map OldWorksRow.migrate) ∧
      (∀ t, s.sdg_results = some t → (init_schema s).sdg_results = some t) ∧
      (∀ r : OldWorksRow,
        (OldWorksRow.migrate r).institution_affiliations_json = none ∧
        (OldWorksRow.migrate r).openalex_id = r.openalex_id ∧
        (OldWorksRow.migrate r).title = r.title ∧
        (OldWorksRow.migrate r).publication_date = r.publication_date ∧
        (OldWorksRow.migrate r).doi = r.doi ∧
        (OldWorksRow.migrate r).type = r.type ∧
        (OldWorksRow.migrate r).language = r.language ∧
        (OldWorksRow.migrate r).is_oa = r.is_oa ∧
        (OldWorksRow.migrate r).oa_status = r.oa_status ∧
        (OldWorksRow.migrate r).authors = r.authors ∧
        (OldWorksRow.migrate r).institutions = r.institutions ∧
        (OldWorksRow.migrate r).abstract = r.abstract ∧
        (OldWorksRow.migrate r).raw_json = r.raw_json ∧
        (OldWorksRow.migrate r).updated_at = r.updated_at)) := by
  constructor
  · intro wrows sdg; rfl
  · intro s wrows hw
    refine ⟨?_, ?_, ?_⟩
    · simp [init_schema, hw]
    · intro t ht; simp [init_schema, ht]
    · intro r
      exact ⟨rfl, rfl, rfl, rfl, rfl, rfl, rfl, rfl, rfl, rfl, rfl, rfl, rfl, rfl⟩

theorem init_schema_idempotent_and_migrates_C6_witness :
    init_schema ⟨.current [], some [], true⟩ = ⟨.current [], some [], true⟩ ∧
    (init_schema ⟨.old [oldRowEx], some [], true⟩).works =
      .current ([oldRowEx].map OldWorksRow.migrate) ∧
    (init_schema ⟨.old [oldRowEx], some [], true⟩).sdg_results = some [] ∧
    (OldWorksRow.migrate oldRowEx).institution_affiliations_json = none ∧
    (OldWorksRow.migrate oldRowEx).title = oldRowEx.title :=
  ⟨init_schema_idempotent_and_migrates_C6.1 [] [],
    (init_schema_idempotent_and_migrates_C6.2 ⟨.old [oldRowEx], some [], true⟩
      [oldRowEx] rfl).1,
    (init_schema_idempotent_and_migrates_C6.2 ⟨.old [oldRowEx], some [], true⟩
      [oldRowEx] rfl).2.1 [] rfl,
    ((init_schema_idempotent_and_migrates_C6.2 ⟨.old [oldRowEx], some [], true⟩
      [oldRowEx] rfl).2.2 oldRowEx).1,
    ((init_schema_idempotent_and_migrates_C6.2 ⟨.old [oldRowEx], some [], true⟩
      [oldRowEx] rfl).2.2 oldRowEx).2.2.1⟩

/-- Claim C7: a lookup miss on either cache is an explicit absent
result, not an exception: when no row exists for the given key, both
`get` operations (total functions in this embedding) return `none`. -/
theorem lookup_miss_returns_absent_C7 (st : WorksTable) (id : String)
    (st2 : SdgTable) (id2 m : String)
    (h1 : ∀ r ∈ st, r.openalex_id ≠ some (pyStrip id))
    (h2 : ∀ r ∈ st2, ¬(r.openalex_id = pyStrip id2 ∧ r.model = pyStrip m)) :
    get_cached_work st id = none ∧ get_cached_sdg_result st2 id2 m = none := by
  constructor
  · exact List.find?_eq_none.mpr
      (fun r hr hp => h1 r hr ((sqlEqKey_true_iff _ _).mp hp))
  · have hfind : st2.find?
        (fun r => r.openalex_id == pyStrip id2 && r.model == pyStrip m) = none :=
      List.find?_eq_none.mpr
        (fun r hr hp => h2 r hr (by simpa [Bool.and_eq_true] using hp))
    simp [get_cached_sdg_result, hfind]

theorem lookup_miss_returns_absent_C7_witness :
    get_cached_work [workRowOf { openalex_id := some "W2" } none "T0"] "W1" = none ∧
    get_cached_sdg_result [sdgRowOf "W2" "gpt-4" none "A" "na" "T0"] "W1" "gpt-4" =
      none :=
  lookup_miss_returns_absent_C7 [workRowOf { openalex_id := some "W2" } none "T0"]
    "W1" [sdgRowOf "W2" "gpt-4" none "A" "na" "T0"] "W1" "gpt-4"
    (by decide) (by decide)

/-- Claim C8: if serializing a put's payload raises (`json.dumps` fails),
the error propagates to the caller and no row is written: the upsert
produces no successor store state (the failure happens while building
the payload, before any SQL statement runs), so the store is unchanged. -/
theorem serialization_failure_no_write_C8 (st : WorksTable) (row : WorkInput)
    (now : String) (kvs : JsonObj) (st2 : SdgTable) (id m f n now2 : String)
    (hbad : Json.dumps (.jobj kvs) = none) :
    upsert_work st row (some kvs) now = none ∧
    upsert_sdg_result st2 id m (some kvs) f n now2 = none := by
  constructor
  · cases kvs with
    | nil => exact absurd hbad (by decide)
    | cons k v rest => simp [upsert_work, serializeRaw, hbad]
  · simp [upsert_sdg_result, serializeResp, hbad]

theorem serialization_failure_no_write_C8_witness :
    upsert_work [] { openalex_id := some "W1" } (some (.cons "k" .bad .nil))
      "T1" = none ∧
    upsert_sdg_result [] "W1" "gpt-4" (some (.cons "k" .bad .nil)) "A" "na"
      "T1" = none :=
  serialization_failure_no_write_C8 [] { openalex_id := some "W1" } "T1"
    (.cons "k" .bad .nil) [] "W1" "gpt-4" "A" "na" "T1" rfl

theorem runSdgPuts_last_get (id m : String) (c : SdgCall) (cs : List SdgCall) :
    ∀ st st', runSdgPuts id m st (cs ++ [c]) = some st' →
      ∃ rt, serializeResp c.sdg_response = some rt ∧
        get_cached_sdg_result st' id m =
          some ⟨rt, c.sdg_formatted, c.sdg_note, c.now⟩ := by
  induction cs with
  | nil =>
      intro st st' h
      cases hs : serializeResp c.sdg_response with
      | none => simp [runSdgPuts, upsert_sdg_result, hs] at h
      | some rt =>
          refine ⟨rt, rfl, ?_⟩
          have hst : sdgUpsertRow st
              (sdgRowOf id m rt c.sdg_formatted c.sdg_note c.now) = st' := by
            simpa [runSdgPuts, upsert_sdg_result, hs] using h
          rw [← hst]
          exact get_sdgUpsertRow_self st _ id m rfl rfl
  | cons c0 cs ih =>
      intro st st' h
      cases hu : upsert_sdg_result st id m c0.sdg_response c0.sdg_formatted
          c0.sdg_note c0.now with
      | none => simp [runSdgPuts, hu] at h
      | some st1 => exact ih st1 st' (by simpa [runSdgPuts, hu] using h)

theorem runWorkPuts_last_get (id : String) (htrim : pyStrip id = id)
    (c : WorkCall) (hc : c.row.openalex_id = some id) (cs : List WorkCall) :
    ∀ st st', runWorkPuts st (cs ++ [c]) = some st' →
      ∃ rt, serializeRaw c.raw_record = some rt ∧
        get_cached_work st' id = some (workRowOf c.row rt c.now) := by
  induction cs with
  | nil =>
      intro st st' h
      cases hs : serializeRaw c.raw_record with
      | none => simp [runWorkPuts, upsert_work, hs] at h
      | some rt =>
          refine ⟨rt, rfl, ?_⟩
          have hst : worksUpsertRow st (workRowOf c.row rt c.now) = st' := by
            simpa [runWorkPuts, upsert_work, hs] using h
          rw [← hst]
          exact get_worksUpsertRow_self st _ id (by simp [workRowOf, hc, htrim])
  | cons c0 cs ih =>
      intro st st' h
      cases hu : upsert_work st c0.row c0.raw_record c0.now with
      | none => simp [runWorkPuts, hu] at h
      | some st1 => exact ih st1 st' (by simpa [runWorkPuts, hu] using h)

/-- Claim C9: the write lock serializes all `put` calls into a total
order, so N concurrent `put` calls to one key that all run to completion
are a sequence of atomic upserts; afterwards the store holds exactly the
full payload of the call that committed last, never a row mixing fields
from two different calls.  Stated for both caches. -/
theorem serialized_puts_last_write_wins_C9 :
    (∀ (id m : String) (cs : List SdgCall) (c : SdgCall) (st st' : SdgTable),
      runSdgPuts id m st (cs ++ [c]) = some st' →
      ∃ rt, serializeResp c.sdg_response = some rt ∧
        get_cached_sdg_result st' id m =
          some ⟨rt, c.sdg_formatted, c.sdg_note, c.now⟩) ∧
    (∀ (id : String) (cs : List WorkCall) (c : WorkCall) (st st' : WorksTable),
      pyStrip id = id → c.row.openalex_id = some id →
      runWorkPuts st (cs ++ [c]) = some st' →
      ∃ rt, serializeRaw c.raw_record = some rt ∧
        get_cached_work st' id = some (workRowOf c.row rt c.now)) :=
  ⟨fun id m cs c st st' h => runSdgPuts_last_get id m c cs st st' h,
   fun id cs c st st' ht hc h => runWorkPuts_last_get id ht c hc cs st st' h⟩

theorem serialized_puts_last_write_wins_C9_witness :
    (∃ rt, serializeResp (⟨none, "B", "nb", "T2"⟩ : SdgCall).sdg_response =
        some rt ∧
      get_cached_sdg_result [sdgRowOf "W1" "gpt-4" none "B" "nb" "T2"]
        "W1" "gpt-4" = some ⟨rt, "B", "nb", "T2"⟩) ∧
    (∃ rt, serializeRaw
        (⟨{ openalex_id := some "W1", title := some "B" }, none, "T2"⟩ :
          WorkCall).raw_record = some rt ∧
      get_cached_work
        [workRowOf { openalex_id := some "W1", title := some "B" } none "T2"]
        "W1" =
        some (workRowOf { openalex_id := some "W1", title := some "B" }
          rt "T2")) :=
  by
  constructor
  · exact serialized_puts_last_write_wins_C9.1 "W1" "gpt-4"
      [⟨none, "A", "na", "T1"⟩] ⟨none, "B", "nb", "T2"⟩ []
      [sdgRowOf "W1" "gpt-4" none "B" "nb" "T2"] (by decide)
  · exact serialized_puts_last_write_wins_C9.2 "W1"
      [⟨{ openalex_id := some "W1", title := some "A" }, none, "T1"⟩]
      ⟨{ openalex_id := some "W1", title := some "B" }, none, "T2"⟩ []
      [workRowOf { openalex_id := some "W1", title := some "B" } none "T2"]
      (by decide) rfl (by decide)

/-- Claim C10: the two caches treat an empty-dictionary payload
differently: `upsert_work` tests the payload for truthiness, so an empty
`raw_record` stores null in `raw_json`, whereas `upsert_sdg_result`
tests for `None`, so an empty `sdg_response` stores the serialized text
for the empty object. -/
theorem empty_dict_payload_asymmetry_C10 (st : WorksTable) (row : WorkInput)
    (now id : String) (hid : row.openalex_id = some id)
    (htrim : pyStrip id = id) (st2 : SdgTable) (id2 m f n now2 : String) :
    (∃ st', upsert_work st row (some .nil) now = some st' ∧
      get_cached_work st' id = some (workRowOf row none now) ∧
      (workRowOf row none now).raw_json = none) ∧
    (∃ st2', upsert_sdg_result st2 id2 m (some .nil) f n now2 = some st2' ∧
      get_cached_sdg_result st2' id2 m = some ⟨some "\x7b\x7d", f, n, now2⟩) := by
  constructor
  · refine ⟨worksUpsertRow st (workRowOf row none now), rfl, ?_, rfl⟩
    exact get_worksUpsertRow_self st _ id (by simp [workRowOf, hid, htrim])
  · refine ⟨sdgUpsertRow st2 (sdgRowOf id2 m (some "\x7b\x7d") f n now2), rfl, ?_⟩
    exact get_sdgUpsertRow_self st2 _ id2 m rfl rfl

theorem empty_dict_payload_asymmetry_C10_witness :
    (∃ st', upsert_work [] { openalex_id := some "W1" } (some .nil) "T1" =
        some st' ∧
      get_cached_work st' "W1" =
        some (workRowOf { openalex_id := some "W1" } none "T1") ∧
      (workRowOf { openalex_id := some "W1" } none "T1").raw_json = none) ∧
    (∃ st2', upsert_sdg_result [] "W1" "gpt-4" (some .nil) "A" "na" "T1" =
        some st2' ∧
      get_cached_sdg_result st2' "W1" "gpt-4" =
        some ⟨some "\x7b\x7d", "A", "na", "T1"⟩) :=
  empty_dict_payload_asymmetry_C10 [] { openalex_id := some "W1" } "T1" "W1"
    rfl (by decide) [] "W1" "gpt-4" "A" "na" "T1"

/-- Claim C2 counterexample: `upsert_work` does not strip the
identifier.  A `put` whose identifier carries surrounding whitespace
writes a row keyed by the raw identifier, and a subsequent `get` —
whether called with the whitespace-padded identifier or the trimmed one
— strips its argument and finds nothing: the put and the get do not
address the same row. -/
theorem work_put_untrimmed_get_misses_C2 :
    upsert_work [] { openalex_id := some " W1" } none "2026-01-01T00:00:00" =
      some [workRowOf { openalex_id := some " W1" } none "2026-01-01T00:00:00"] ∧
    get_cached_work
      [workRowOf { openalex_id := some " W1" } none "2026-01-01T00:00:00"]
      " W1" = none ∧
    get_cached_work
      [workRowOf { openalex_id := some " W1" } none "2026-01-01T00:00:00"]
      "W1" = none :=
  ⟨rfl, by decide, by decide⟩

/-- Claim C2 as amended: the identifier is trimmed before use by both
`get` operations and by the classification-result `put` (all of which
are therefore insensitive to surrounding whitespace in their key
arguments), but `upsert_work` stores the work identifier exactly as
given, without trimming — so a work-record `put` whose identifier has
surrounding whitespace and a `get` address different rows. -/
theorem trim_behavior_per_operation_C2 (st : WorksTable) (st2 : SdgTable)
    (id1 id2 m1 m2 : String) (resp : Option JsonObj) (f n now : String)
    (row : WorkInput) (rt : Option String)
    (hid : pyStrip id1 = pyStrip id2) (hm : pyStrip m1 = pyStrip m2) :
    get_cached_work st id1 = get_cached_work st id2 ∧
    get_cached_sdg_result st2 id1 m1 = get_cached_sdg_result st2 id2 m2 ∧
    upsert_sdg_result st2 id1 m1 resp f n now =
      upsert_sdg_result st2 id2 m2 resp f n now ∧
    (workRowOf row rt now).openalex_id = row.openalex_id := by
  refine ⟨?_, ?_, ?_, rfl⟩
  · simp [get_cached_work, hid]
  · simp [get_cached_sdg_result, hid, hm]
  · simp [upsert_sdg_result, sdgRowOf, hid, hm]

theorem trim_behavior_per_operation_C2_witness :
    get_cached_work [] " W1 " = get_cached_work [] "W1" ∧
    get_cached_sdg_result [] " W1 " " gpt-4 " =
      get_cached_sdg_result [] "W1" "gpt-4" ∧
    upsert_sdg_result [] " W1 " " gpt-4 " none "A" "na" "T1" =
      upsert_sdg_result [] "W1" "gpt-4" none "A" "na" "T1" ∧
    (workRowOf { openalex_id := some " W1 " } none "T1").openalex_id =
      some " W1 " :=
  trim_behavior_per_operation_C2 [] [] " W1 " "W1" " gpt-4 " "gpt-4" none
    "A" "na" "T1" { openalex_id := some " W1 " } none (by decide) (by decide)
